import Mathlib

/-!
# Vita3K: media player glue (`codec/src/player.cpp`) and the NGS pitch-shift
# parameter block (`ngs/modules/pitchshift.h`)

A shallow embedding of the two source files.

* LibAV is an external library.  Its observable behaviour is supplied by an
  environment record `Env` (which files exist, what a container holds, which
  status a decoder returns).  A decoder context records the packets that were
  handed to `avcodec_send_packet` and how often `avcodec_receive_frame` was
  called, so the decoder oracle may depend on the complete history.
* `assert(...)` and a dereference of a null LibAV handle end the run.  They are
  modelled by `Except.error`, carrying the player state at that point.
* `int` is modelled by `Int`; where the source converts to an unsigned 64-bit
  type or multiplies two `int`s the wrap-around is written out.
-/

namespace Vita3K

/-! ## Machine integers -/

/-- Conversion of a signed value to `uint64_t` / `size_t` (two's complement). -/
def to_uint64 (x : Int) : Nat := (x % (2 ^ 64 : Int)).toNat

/-- Result of an `int` operation, wrapped to 32 bits two's complement. -/
def wrap_int32 (x : Int) : Int := (x + 2 ^ 31) % 2 ^ 32 - 2 ^ 31

/-! ## C structure layout (for `sizeof`) -/

/-- Size and alignment of a C type, in bytes. -/
structure CType where
  size : Nat
  align : Nat
deriving DecidableEq, Repr

/-- Smallest multiple of `al` that is at least `off`. -/
def align_up (off al : Nat) : Nat := ((off + al - 1) / al) * al

/-- Offset of the first byte after the last of `fields`, laid out in order
starting at `off`, each field at the next offset aligned for it. -/
def layout_end : List CType → Nat → Nat
  | [], off => off
  | t :: rest, off => layout_end rest (align_up off t.align + t.size)

/-- Byte offset of field number `i` of a struct with the given fields. -/
def field_offset (fields : List CType) (i : Nat) : Nat :=
  align_up (layout_end (fields.take i) 0) ((fields.getD i ⟨0, 1⟩).align)

/-- Alignment of a struct: the largest alignment among its fields. -/
def struct_align (fields : List CType) : Nat :=
  fields.foldl (fun acc t => max acc t.align) 1

/-- The C type of a struct: fields in declaration order, padded to its
alignment. -/
def struct_of (fields : List CType) : CType :=
  ⟨align_up (layout_end fields 0) (struct_align fields), struct_align fields⟩

/-- Modelled from the spec: `SceUInt32`, a typedef declared outside the
sources; a 32-bit unsigned integer. -/
def SceUInt32 : CType := ⟨4, 4⟩

/-- Modelled from the spec: `SceFloat32`, a typedef declared outside the
sources; a 32-bit float. -/
def SceFloat32 : CType := ⟨4, 4⟩

/-- Modelled from the spec: `SceNgsParamsDescriptor` is declared in
`ngs/types.h`, which is not among the sources.  The spec gives it as
`{structure_id: 32-bit constant, declared_size: bytes}`; both members are taken
as 32-bit unsigned integers. -/
def SceNgsParamsDescriptor_fields : List CType := [SceUInt32, SceUInt32]

def SceNgsParamsDescriptor : CType := struct_of SceNgsParamsDescriptor_fields

def SCE_NGS_PITCHSHIFT_PARAMS_STRUCT_ID : Nat := 0x01015CEA

/-- Members of `struct SceNgsPitchShiftParams`: `desc`, `fPitchOffsetInCents`. -/
def SceNgsPitchShiftParams_fields : List CType := [SceNgsParamsDescriptor, SceFloat32]

def SceNgsPitchShiftParams : CType := struct_of SceNgsPitchShiftParams_fields

namespace ngs

/-- Instance of `class PitchShiftModule`.  The class adds no data member of its
own; `state` stands for whatever the `Module` base and the streaming state of an
instance hold. -/
structure PitchShiftModule where
  state : List Nat
deriving DecidableEq, Repr

/-- `uint32_t module_id() const`. -/
def PitchShiftModule.module_id (_self : PitchShiftModule) : Nat := 0x5CEA

/-- `static constexpr uint32_t get_max_parameter_size()`:
`sizeof(SceNgsPitchShiftParams)` converted to `uint32_t`. -/
def PitchShiftModule.get_max_parameter_size : Nat :=
  SceNgsPitchShiftParams.size % 2 ^ 32

/-- `uint32_t get_buffer_parameter_size() const override`. -/
def PitchShiftModule.get_buffer_parameter_size (_self : PitchShiftModule) : Nat :=
  PitchShiftModule.get_max_parameter_size

end ngs

/-! ## Parameter codec and voice storage -/

/-- Modelled from the spec: result codes of `set_parameter`
(`Ok | ParamTooLarge | BadStructId | InvalidHandle`). -/
inductive ParamResult where
  | Ok
  | ParamTooLarge
  | BadStructId
  | InvalidHandle
deriving DecidableEq, Repr

/-- Modelled from the spec: the closed set of module kinds.  Only the
pitch-shift kind is present in the sources; `other` stands for every other
kind, with its own structure id and maximum parameter size. -/
inductive ModuleKind where
  | pitch_shift
  | other (structure_id : Nat) (max_size : Nat)
deriving DecidableEq, Repr

/-- Modelled from the spec: `max_parameter_size(kind)`; for the pitch-shift
kind it is `PitchShiftModule::get_max_parameter_size()` of the source. -/
def max_parameter_size : ModuleKind → Nat
  | .pitch_shift => ngs.PitchShiftModule.get_max_parameter_size
  | .other _ m => m

/-- Modelled from the spec: the structure id a module kind is keyed by. -/
def structure_id_of : ModuleKind → Nat
  | .pitch_shift => SCE_NGS_PITCHSHIFT_PARAMS_STRUCT_ID
  | .other i _ => i

/-- Modelled from the spec: `ModuleInstance`, a kind and its owned parameter
storage. -/
structure ModuleInstance where
  module_kind : ModuleKind
  storage : List Nat
deriving DecidableEq, Repr

/-- Modelled from the spec: a voice, as far as parameters are concerned: its
ordered chain of module instances. -/
structure Voice where
  modules : List ModuleInstance
deriving DecidableEq, Repr

/-- Modelled from the spec: `validate(structure_id, bytes, declared_size)`
of the Parameter Codec, which is not among the sources.  A blob longer
than the declared size is `ParamTooLarge` whatever else it holds (spec 8: "for
any blob with len > max_parameter_size(kind)"); an id other than the one the
module kind is keyed by is `BadStructId`. -/
def validate (expected_id structure_id : Nat) (bytes : List Nat) (declared_size : Nat) :
    ParamResult :=
  if bytes.length > declared_size then .ParamTooLarge
  else if structure_id ≠ expected_id then .BadStructId
  else .Ok

/-- Modelled from the spec: the structure id "guest binaries write into the
blob header", a little-endian 32-bit value at the start of the blob. -/
def read_u32_le (bytes : List Nat) : Nat :=
  bytes.getD 0 0 % 256 + 256 * (bytes.getD 1 0 % 256) + 65536 * (bytes.getD 2 0 % 256)
    + 16777216 * (bytes.getD 3 0 % 256)

/-- Modelled from the spec: `Voice::set_parameter(slot, bytes)`, which is not
among the sources: "delegates to Parameter Codec; on error, voice storage
is left byte-identical to its prior value"; on success the bytes are copied into
the slot's storage. -/
def Voice.set_parameter (v : Voice) (slot : Nat) (bytes : List Nat) : ParamResult × Voice :=
  match v.modules.get? slot with
  | none => (.InvalidHandle, v)
  | some m =>
    match validate (structure_id_of m.module_kind) (read_u32_le bytes) bytes
        (max_parameter_size m.module_kind) with
    | .Ok => (.Ok, { v with modules := v.modules.set slot { m with storage := bytes } })
    | err => (err, v)

/-! ## LibAV data, as far as the player looks at it -/

/-- `AVPacket`: the stream it belongs to and an identifier of its payload. -/
structure AVPacket where
  stream_index : Int
  payload : Nat
deriving DecidableEq, Repr

structure AVRational where
  num : Int
  den : Int
deriving DecidableEq, Repr

/-- `AVStream`: its codec parameters (an identifier) and average frame rate. -/
structure AVStream where
  codecpar : Nat
  avg_frame_rate : AVRational
deriving DecidableEq, Repr

/-- An opened input (`AVFormatContext`): its streams, the status
`avformat_find_stream_info` gives for it, what `av_find_best_stream` answers for
video and for audio, and the packets `av_read_frame` has yet to deliver. -/
structure AVFormatContext where
  streams : List AVStream
  find_stream_info_status : Int
  best_video_stream : Int
  best_audio_stream : Int
  packets : List AVPacket
deriving DecidableEq, Repr

/-- An opened decoder (`AVCodecContext`): the codec parameters it was made
from, the packets passed to `avcodec_send_packet` so far, oldest first, and the
number of `avcodec_receive_frame` calls so far. -/
structure AVCodecContext where
  codecpar : Nat
  sent : List AVPacket
  received : Nat
deriving DecidableEq, Repr

/-- `AVFrame`.  `data b a` is the bit pattern of `((float *)data[b])[a]`. -/
structure AVFrame where
  format : Int
  nb_channels : Int
  nb_samples : Int
  sample_rate : Int
  data : Nat → Nat → Nat
  best_effort_timestamp : Int

/-- What the world outside `player.cpp` does.
* `fs_exists`: `fs::exists(path)`.
* `avformat_open_input`: the opened input, or `none` for a non-zero status.
* `avcodec_send_packet`: status for handing a packet to a decoder.
* `avcodec_receive_frame`: status and frame a decoder gives next.
* `pcm_of_float`: `int16_t(current_sample * INT16_MAX)` on a float's bit
  pattern.
* `yuv_of_frame`: the buffer `data.resize(H264DecoderState::buffer_size(..))`
  followed by `copy_yuv_data_from_frame` leaves. -/
structure Env where
  fs_exists : String → Bool
  avformat_open_input : String → Option AVFormatContext
  avcodec_send_packet : AVCodecContext → AVPacket → Int
  avcodec_receive_frame : AVCodecContext → Int × AVFrame
  pcm_of_float : Nat → Int
  yuv_of_frame : AVCodecContext → AVFrame → List Nat

/-- `EAGAIN` of `<errno.h>` (its value on Linux). -/
def EAGAIN : Int := 11

/-- `AVERROR(e)`. -/
def AVERROR (e : Int) : Int := -e

/-! ## `PlayerState` -/

/-- Data members of `PlayerState` that `player.cpp` uses.  Null handles are
`none`; `std::queue` is a list with the front first. -/
structure PlayerState where
  format : Option AVFormatContext
  video_context : Option AVCodecContext
  audio_context : Option AVCodecContext
  video_stream_id : Int
  audio_stream_id : Int
  video_packets : List AVPacket
  audio_packets : List AVPacket
  video_playing : String
  videos_queue : List String
  last_timestamp : Int
  last_channels : Int
  last_sample_count : Int
  last_sample_rate : Int
deriving DecidableEq, Repr

/-- `format->streams[i]`; `none` when `i` is not the index of a stream. -/
def stream_at (f : AVFormatContext) (i : Int) : Option AVStream :=
  if i < 0 then none else f.streams.get? i.toNat

/-- `PlayerState::get_framerate_microseconds`:
`1000000ull * rational.den / rational.num` in `uint64_t`.  `none` stands for
undefined behaviour: a null `format`, no such stream, or division by zero. -/
def PlayerState.get_framerate_microseconds (s : PlayerState) : Option Nat :=
  match s.format with
  | none => none
  | some f =>
    match stream_at f s.video_stream_id with
    | none => none
    | some st =>
      let rational := st.avg_frame_rate
      if to_uint64 rational.num = 0 then none
      else some (((1000000 * to_uint64 rational.den) % 2 ^ 64) / to_uint64 rational.num)

/-- The loops `while (!q.empty()) { av_packet_free(q.front()); q.pop(); }`. -/
def free_packets : List AVPacket → List AVPacket
  | [] => []
  | _ :: rest => free_packets rest

/-- `PlayerState::free_video`. -/
def PlayerState.free_video (s : PlayerState) : PlayerState :=
  { s with
    video_context := none
    audio_context := none
    format := none
    video_packets := free_packets s.video_packets
    audio_packets := free_packets s.audio_packets
    video_playing := "" }

/-- The block `if (id >= 0) { stream = format->streams[id]; ...;
context = avcodec_alloc_context3(..); ...; avcodec_open2(..); }` of
`switch_video`: the new value of the context, `none` of the outer option when
`streams[id]` does not exist. -/
def open_decoder (f : AVFormatContext) (id : Int) (old : Option AVCodecContext) :
    Option (Option AVCodecContext) :=
  if id ≥ 0 then
    match stream_at f id with
    | none => none
    | some st => some (some ⟨st.codecpar, [], 0⟩)
  else some old

/-- `PlayerState::switch_video`. -/
def PlayerState.switch_video (env : Env) (path : String) (s : PlayerState) :
    Except PlayerState PlayerState :=
  let s1 := { s.free_video with video_playing := path }
  match env.avformat_open_input path with
  | none => .error s1
  | some f =>
    let s2 := { s1 with format := some f }
    if f.find_stream_info_status < 0 then .error s2
    else
      let s3 := { s2 with
        video_stream_id := f.best_video_stream
        audio_stream_id := f.best_audio_stream }
      match open_decoder f s3.video_stream_id s3.video_context with
      | none => .error s3
      | some vc =>
        let s4 := { s3 with video_context := vc }
        match open_decoder f s4.audio_stream_id s4.audio_context with
        | none => .error s4
        | some ac => .ok { s4 with audio_context := ac }

/-- `this_queue` of `next_packet`. -/
def this_queue (stream_id : Int) (s : PlayerState) : List AVPacket :=
  if stream_id = s.video_stream_id then s.video_packets else s.audio_packets

/-- Assignment through the reference `this_queue`. -/
def set_this_queue (stream_id : Int) (q : List AVPacket) (s : PlayerState) : PlayerState :=
  if stream_id = s.video_stream_id then { s with video_packets := q }
  else { s with audio_packets := q }

/-- `other_queue.push(packet)` of `next_packet`. -/
def push_other_queue (stream_id : Int) (packet : AVPacket) (s : PlayerState) : PlayerState :=
  if stream_id ≠ s.video_stream_id then { s with video_packets := s.video_packets ++ [packet] }
  else { s with audio_packets := s.audio_packets ++ [packet] }

/-- `avcodec_send_packet(video_context, p); assert(err == 0);`. -/
def send_video (env : Env) (p : AVPacket) (s : PlayerState) : Except PlayerState PlayerState :=
  match s.video_context with
  | none => .error s
  | some ctx =>
    let s1 := { s with video_context := some { ctx with sent := ctx.sent ++ [p] } }
    if env.avcodec_send_packet ctx p = 0 then .ok s1 else .error s1

/-- `avcodec_send_packet(audio_context, p); assert(err == 0);`. -/
def send_audio (env : Env) (p : AVPacket) (s : PlayerState) : Except PlayerState PlayerState :=
  match s.audio_context with
  | none => .error s
  | some ctx =>
    let s1 := { s with audio_context := some { ctx with sent := ctx.sent ++ [p] } }
    if env.avcodec_send_packet ctx p = 0 then .ok s1 else .error s1

/-- The branch `if (!this_queue.empty()) { ... return true; }` of
`next_packet`, for a queue with front `this_packet` and rest `q`. -/
def submit_front (env : Env) (stream_id : Int) (this_packet : AVPacket) (q : List AVPacket)
    (s : PlayerState) : Except PlayerState (Bool × PlayerState) :=
  let s1 := set_this_queue stream_id q s
  match (if stream_id = s1.video_stream_id then send_video env this_packet s1 else .ok s1) with
  | .error e => .error e
  | .ok s2 =>
    match (if stream_id = s2.audio_stream_id then send_audio env this_packet s2 else .ok s2) with
    | .error e => .error e
    | .ok s3 => .ok (true, s3)

/-- State after `av_read_frame` took a packet: `rest` is still to be read. -/
def set_unread (rest : List AVPacket) (s : PlayerState) : PlayerState :=
  { s with format := s.format.map (fun f => { f with packets := rest }) }

/-- The `while (true)` loop of `next_packet`.  The first argument is the list
of packets the input has yet to deliver (`s.format`'s `packets`); every
iteration either returns or reads one of them. -/
def next_packet_loop (env : Env) (stream_id : Int) :
    List AVPacket → PlayerState → Except PlayerState (Bool × PlayerState)
  | [], s =>
    match this_queue stream_id s with
    | this_packet :: q => submit_front env stream_id this_packet q s
    | [] => .ok (false, s)
  | packet :: rest, s =>
    match this_queue stream_id s with
    | this_packet :: q => submit_front env stream_id this_packet q s
    | [] =>
      let s1 := set_unread rest s
      if packet.stream_index = stream_id then
        next_packet_loop env stream_id rest
          (set_this_queue stream_id (this_queue stream_id s1 ++ [packet]) s1)
      else
        next_packet_loop env stream_id rest (push_other_queue stream_id packet s1)

/-- `PlayerState::next_packet`.  With an empty queue and a null `format`,
`av_read_frame` dereferences null. -/
def PlayerState.next_packet (env : Env) (stream_id : Int) (s : PlayerState) :
    Except PlayerState (Bool × PlayerState) :=
  match s.format with
  | some f => next_packet_loop env stream_id f.packets s
  | none =>
    match this_queue stream_id s with
    | this_packet :: q => submit_front env stream_id this_packet q s
    | [] => .error s

/-- The inner loop `for (int b = 0; b < nb_channels; b++)` of `receive_audio`
for sample `a`, run for its first `b` rounds. -/
def audio_inner (env : Env) (frame : AVFrame) (a : Nat) : Nat → List Int → List Int
  | 0, data => data
  | b + 1, data =>
    (audio_inner env frame a b data).set
      (to_uint64 (wrap_int32 (wrap_int32 ((a : Int) * frame.nb_channels) + (b : Int))))
      (env.pcm_of_float (frame.data b a))

/-- The outer loop `for (int a = 0; a < nb_samples; a++)` of `receive_audio`,
run for its first `a` rounds. -/
def audio_outer (env : Env) (frame : AVFrame) : Nat → List Int → List Int
  | 0, data => data
  | a + 1, data =>
    audio_inner env frame a frame.nb_channels.toNat (audio_outer env frame a data)

/-- Lines 172-182 of `receive_audio`: `data.resize(nb_samples * nb_channels)`
on the still empty vector, then the two loops. -/
def interleave (env : Env) (frame : AVFrame) : List Int :=
  audio_outer env frame frame.nb_samples.toNat
    (List.replicate (to_uint64 (wrap_int32 (frame.nb_samples * frame.nb_channels))) 0)

/-- The `while (true)` loop of `receive_audio`, at most `fuel` rounds; `none`
when the rounds are used up.  `data` is empty at the head of every round, as it
is resized only right before the final `break`. -/
def receive_audio_loop (env : Env) :
    Nat → PlayerState → Option (Except PlayerState (List Int × PlayerState))
  | 0, _ => none
  | fuel + 1, s =>
    match s.audio_context with
    | none => some (.error s)
    | some ctx =>
      let error := (env.avcodec_receive_frame ctx).1
      let frame := (env.avcodec_receive_frame ctx).2
      let s0 := { s with audio_context := some { ctx with received := ctx.received + 1 } }
      match (if error = AVERROR EAGAIN then s0.next_packet env s0.audio_stream_id
             else .ok (false, s0)) with
      | .error e => some (.error e)
      | .ok (true, s1) => receive_audio_loop env fuel s1
      | .ok (false, s1) =>
        if error ≠ 0 then
          match s1.videos_queue with
          | [] => some (.ok ([], { s1 with video_playing := "" }))
          | front :: rest =>
            match s1.switch_video env front with
            | .error e => some (.error e)
            | .ok s2 => receive_audio_loop env fuel { s2 with videos_queue := rest }
        else
          some (.ok (interleave env frame,
            { s1 with
              last_channels := frame.nb_channels
              last_sample_count := frame.nb_samples
              last_sample_rate := frame.sample_rate }))

/-- `PlayerState::receive_audio`. -/
def PlayerState.receive_audio (env : Env) (fuel : Nat) (s : PlayerState) :
    Option (Except PlayerState (List Int × PlayerState)) :=
  if s.audio_stream_id < 0 then some (.ok ([], s))
  else if s.video_playing = "" then some (.ok ([], s))
  else receive_audio_loop env fuel s

/-- The `while (true)` loop of `receive_video`, at most `fuel` rounds. -/
def receive_video_loop (env : Env) :
    Nat → PlayerState → Option (Except PlayerState (List Nat × PlayerState))
  | 0, _ => none
  | fuel + 1, s =>
    match s.video_context with
    | none => some (.error s)
    | some ctx =>
      let error := (env.avcodec_receive_frame ctx).1
      let frame := (env.avcodec_receive_frame ctx).2
      let s0 := { s with video_context := some { ctx with received := ctx.received + 1 } }
      match (if error = AVERROR EAGAIN then s0.next_packet env s0.video_stream_id
             else .ok (false, s0)) with
      | .error e => some (.error e)
      | .ok (true, s1) => receive_video_loop env fuel s1
      | .ok (false, s1) =>
        if error ≠ 0 then
          match s1.videos_queue with
          | [] => some (.ok ([], { s1 with video_playing := "" }))
          | front :: rest =>
            match s1.switch_video env front with
            | .error e => some (.error e)
            | .ok s2 => receive_video_loop env fuel { s2 with videos_queue := rest }
        else
          match s1.video_context with
          | none => some (.error s1)
          | some vctx =>
            some (.ok (env.yuv_of_frame vctx frame,
              { s1 with last_timestamp := frame.best_effort_timestamp }))

/-- `PlayerState::receive_video`. -/
def PlayerState.receive_video (env : Env) (fuel : Nat) (s : PlayerState) :
    Option (Except PlayerState (List Nat × PlayerState)) :=
  if s.video_stream_id < 0 then some (.ok ([], s))
  else if s.video_playing = "" then some (.ok ([], s))
  else receive_video_loop env fuel s

/-- `PlayerState::pop_video`. -/
def PlayerState.pop_video (env : Env) (s : PlayerState) : Except PlayerState PlayerState :=
  match s.videos_queue with
  | [] => .error s
  | front :: rest =>
    match s.switch_video env front with
    | .error e => .error e
    | .ok s1 => .ok { s1 with videos_queue := rest }

/-- `PlayerState::queue`. -/
def PlayerState.queue (env : Env) (path : String) (s : PlayerState) :
    Except PlayerState PlayerState :=
  if env.fs_exists path then
    if s.video_playing = "" then s.switch_video env path
    else .ok { s with videos_queue := s.videos_queue ++ [path] }
  else .ok s

/-! ## Scenarios -/

/-- The player state a run ends in: the returned state, or the state at the
failed assertion. -/
def final_state : Except PlayerState PlayerState → PlayerState
  | .ok s => s
  | .error s => s

/-- Packets handed to a decoder so far (none for a null context). -/
def sent_to : Option AVCodecContext → List AVPacket
  | some ctx => ctx.sent
  | none => []

/-- Packets the input has yet to deliver. -/
def unread (s : PlayerState) : List AVPacket :=
  match s.format with
  | some f => f.packets
  | none => []

/-- A sequence of `next_packet` calls, one per stream id of the list, each on
the state the previous one left; the results, in order, and the last state. -/
def run_calls (env : Env) : List Int → PlayerState → Except PlayerState (List Bool × PlayerState)
  | [], s => .ok ([], s)
  | id :: rest, s =>
    match s.next_packet env id with
    | .error e => .error e
    | .ok (r, s1) =>
      match run_calls env rest s1 with
      | .error e => .error e
      | .ok (rs, s2) => .ok (r :: rs, s2)

/-- Number of calls for stream `id` among `calls` that returned `true`. -/
def successes (id : Int) : List Int → List Bool → Nat
  | c :: calls, r :: rs => (if c = id ∧ r = true then 1 else 0) + successes id calls rs
  | _, _ => 0

/-- Packets of stream `id` among `l`, in order. -/
def of_stream (id : Int) (l : List AVPacket) : List AVPacket :=
  l.filter (fun p => decide (p.stream_index = id))

/-- A player with an opened input and two opened decoders for two different
streams, reading an input all of whose remaining packets belong to one of the
two. -/
structure Ready (s : PlayerState) : Prop where
  distinct : s.video_stream_id ≠ s.audio_stream_id
  format_open : ∃ f, s.format = some f
  video_open : ∃ vc, s.video_context = some vc
  audio_open : ∃ ac, s.audio_context = some ac
  two_streams : ∀ p ∈ unread s,
    p.stream_index = s.video_stream_id ∨ p.stream_index = s.audio_stream_id

/-- What a call `next_packet(id)` that took the state `s` to `s'` and returned
`r` did.  `conserved`: for each stream, the packets handed to its decoder, then
those waiting in its queue, then those still unread, are the same sequence
before and after. -/
structure CallEffect (id : Int) (s : PlayerState) (r : Bool) (s' : PlayerState) : Prop where
  video_id : s'.video_stream_id = s.video_stream_id
  audio_id : s'.audio_stream_id = s.audio_stream_id
  format_open : ∃ f, s'.format = some f
  video_open : ∃ vc, s'.video_context = some vc
  audio_open : ∃ ac, s'.audio_context = some ac
  unread_suffix : ∃ pre, unread s = pre ++ unread s'
  video_conserved :
    sent_to s'.video_context ++ s'.video_packets ++ of_stream s.video_stream_id (unread s')
      = sent_to s.video_context ++ s.video_packets ++ of_stream s.video_stream_id (unread s)
  audio_conserved :
    sent_to s'.audio_context ++ s'.audio_packets ++ of_stream s.audio_stream_id (unread s')
      = sent_to s.audio_context ++ s.audio_packets ++ of_stream s.audio_stream_id (unread s)
  on_true : r = true → ∃ p,
    (id = s.video_stream_id →
      sent_to s'.video_context = sent_to s.video_context ++ [p] ∧
      sent_to s'.audio_context = sent_to s.audio_context) ∧
    (id = s.audio_stream_id →
      sent_to s'.audio_context = sent_to s.audio_context ++ [p] ∧
      sent_to s'.video_context = sent_to s.video_context)
  on_false : r = false →
    this_queue id s = [] ∧ this_queue id s' = [] ∧ unread s' = [] ∧
    (∀ p ∈ unread s, p.stream_index ≠ id) ∧
    sent_to s'.video_context = sent_to s.video_context ∧
    sent_to s'.audio_context = sent_to s.audio_context

/-- The state right after `avcodec_receive_frame(audio_context, frame)` on
the context `ctx`. -/
def audio_frame_requested (s : PlayerState) (ctx : AVCodecContext) : PlayerState :=
  { s with audio_context := some { ctx with received := ctx.received + 1 } }

/-- The state right after `avcodec_receive_frame(video_context, frame)` on
the context `ctx`. -/
def video_frame_requested (s : PlayerState) (ctx : AVCodecContext) : PlayerState :=
  { s with video_context := some { ctx with received := ctx.received + 1 } }

/-! ## Concrete inputs -/

/-- A frame with no samples. -/
def empty_frame : AVFrame := ⟨0, 0, 0, 0, fun _ _ => 0, 0⟩

/-- An input with a video stream 0, an audio stream 1 and a third stream 2
(say subtitles), delivering one packet of each: video, third stream, audio. -/
def three_stream_input : AVFormatContext :=
  ⟨[⟨10, ⟨30, 1⟩⟩, ⟨11, ⟨0, 1⟩⟩, ⟨12, ⟨0, 1⟩⟩], 0, 0, 1, [⟨0, 100⟩, ⟨2, 101⟩, ⟨1, 102⟩]⟩

/-- A world in which `clip.mp4` is the only file, it opens as
`three_stream_input`, every decoder accepts every packet and asks for more
input on every `avcodec_receive_frame`. -/
def demo_env : Env where
  fs_exists := fun path => path == "clip.mp4"
  avformat_open_input := fun path => if path == "clip.mp4" then some three_stream_input else none
  avcodec_send_packet := fun _ _ => 0
  avcodec_receive_frame := fun _ => (AVERROR EAGAIN, empty_frame)
  pcm_of_float := fun bits => bits
  yuv_of_frame := fun _ _ => []

/-- A player that has not played anything yet. -/
def idle_player : PlayerState :=
  ⟨none, none, none, -1, -1, [], [], "", [], 0, 0, 0, 0⟩

/-- The player right after `switch_video("clip.mp4")` in `demo_env`. -/
def demo_player : PlayerState :=
  ⟨some three_stream_input, some ⟨10, [], 0⟩, some ⟨11, [], 0⟩, 0, 1, [], [], "clip.mp4", [],
    0, 0, 0, 0⟩

/-- The player of `demo_env` at the end of `clip.mp4`: every packet read, no
packet waiting, no video waiting. -/
def ended_player : PlayerState :=
  ⟨some { three_stream_input with packets := [] }, some ⟨10, [], 0⟩, some ⟨11, [], 0⟩, 0, 1,
    [], [], "clip.mp4", [], 0, 0, 0, 0⟩

/-- As `ended_player`, with `clip.mp4` and `nope.mp4` waiting to be played. -/
def ended_player_queued : PlayerState :=
  { ended_player with videos_queue := ["clip.mp4", "nope.mp4"] }

/-- A planar frame of 3 samples in 2 channels at 48 kHz; sample `a` of channel
`b` has the bit pattern `10 * b + a`. -/
def stereo_frame : AVFrame := ⟨8, 2, 3, 48000, fun b a => 10 * b + a, 0⟩

/-- As `demo_env`, with decoders that deliver `stereo_frame` at once. -/
def decoding_env : Env :=
  { demo_env with avcodec_receive_frame := fun _ => (0, stereo_frame) }

/-- An input with video stream 0 and audio stream 1 only, delivering video,
audio, audio, video. -/
def two_stream_input : AVFormatContext :=
  ⟨[⟨10, ⟨30, 1⟩⟩, ⟨11, ⟨0, 1⟩⟩], 0, 0, 1, [⟨0, 200⟩, ⟨1, 201⟩, ⟨1, 202⟩, ⟨0, 203⟩]⟩

/-- A player that has just opened `two_stream_input`. -/
def two_stream_player : PlayerState :=
  ⟨some two_stream_input, some ⟨10, [], 0⟩, some ⟨11, [], 0⟩, 0, 1, [], [], "clip.mp4", [],
    0, 0, 0, 0⟩

/-- `AVERROR_STREAM_NOT_FOUND`, what `av_find_best_stream` answers when the
input has no stream of the wanted type: `-FFERRTAG(0xF8, 'S', 'T', 'R')`. -/
def AVERROR_STREAM_NOT_FOUND : Int := -1381258232

/-- An input with one video stream and no audio stream. -/
def silent_input : AVFormatContext :=
  ⟨[⟨20, ⟨30, 1⟩⟩], 0, 0, AVERROR_STREAM_NOT_FOUND, [⟨0, 300⟩, ⟨0, 301⟩]⟩

/-- A world with two files: `clip.mp4` opens as `two_stream_input` (video and
audio), `silent.mp4` as `silent_input` (video only).  Every decoder accepts
every packet and asks for more input on every `avcodec_receive_frame`. -/
def playlist_env : Env where
  fs_exists := fun path => path == "clip.mp4" || path == "silent.mp4"
  avformat_open_input := fun path =>
    if path == "clip.mp4" then some two_stream_input
    else if path == "silent.mp4" then some silent_input
    else none
  avcodec_send_packet := fun _ _ => 0
  avcodec_receive_frame := fun _ => (AVERROR EAGAIN, empty_frame)
  pcm_of_float := fun bits => bits
  yuv_of_frame := fun _ _ => []

/-- The player of `playlist_env` after `queue("clip.mp4")` and then
`queue("silent.mp4")`: the first plays, the second waits. -/
def clip_then_silent : PlayerState :=
  { two_stream_player with videos_queue := ["silent.mp4"] }

/-- The state in which `receive_audio` on `clip_then_silent` stops: `silent.mp4`
opened, its video decoder made, no audio decoder. -/
def silent_without_decoder : PlayerState :=
  ⟨some silent_input, some ⟨20, [], 0⟩, none, 0, AVERROR_STREAM_NOT_FOUND, [], [], "silent.mp4",
    [], 0, 0, 0, 0⟩

/-! ## Pitch-shift parameter block -/

/-- Claim C4: for the pitch-shift module kind the two size accessors are
constants: `get_buffer_parameter_size()` gives the same value on every module
instance whatever its state, that value is `get_max_parameter_size()` (which
takes no instance at all), and so it is never smaller than
`get_max_parameter_size()`. -/
theorem C4_pitchshift_sizes_constant (m1 m2 : ngs.PitchShiftModule) :
    m1.get_buffer_parameter_size = m2.get_buffer_parameter_size ∧
    ngs.PitchShiftModule.get_max_parameter_size ≤ m1.get_buffer_parameter_size ∧
    m1.get_buffer_parameter_size = ngs.PitchShiftModule.get_max_parameter_size := by
  refine ⟨rfl, ?_, rfl⟩
  exact Nat.le_refl _

/-- Claim C5: the pitch-shift parameter block is laid out without padding:
the descriptor at offset 0, the 32-bit float right after it at the offset equal
to the descriptor's size, and `get_max_parameter_size()` is the descriptor's
size plus 4, which is 12 for the descriptor of two 32-bit members. -/
theorem C5_pitchshift_layout :
    field_offset SceNgsPitchShiftParams_fields 0 = 0 ∧
    field_offset SceNgsPitchShiftParams_fields 1 = SceNgsParamsDescriptor.size ∧
    SceFloat32.size = 4 ∧
    ngs.PitchShiftModule.get_max_parameter_size = SceNgsParamsDescriptor.size + 4 ∧
    SceNgsParamsDescriptor.size = 8 ∧
    ngs.PitchShiftModule.get_max_parameter_size = 12 := by
  decide

/-- Claim C6: a blob longer than `PitchShiftModule::get_max_parameter_size()`
set on a pitch-shift slot of a voice is answered `ParamTooLarge`, and the voice
(so every stored parameter byte of that slot) is what it was before. -/
theorem C6_oversized_blob_rejected (v : Voice) (slot : Nat) (m : ModuleInstance)
    (bytes : List Nat)
    (hslot : v.modules.get? slot = some m)
    (hkind : m.module_kind = ModuleKind.pitch_shift)
    (hlen : bytes.length > ngs.PitchShiftModule.get_max_parameter_size) :
    v.set_parameter slot bytes = (ParamResult.ParamTooLarge, v) ∧
    ((v.set_parameter slot bytes).2.modules.get? slot).map ModuleInstance.storage
      = some m.storage := by
  have h : v.set_parameter slot bytes = (ParamResult.ParamTooLarge, v) := by
    simp only [Voice.set_parameter, hslot, hkind, validate, max_parameter_size]
    rw [if_pos hlen]
  refine ⟨h, ?_⟩
  rw [h]
  show (v.modules.get? slot).map ModuleInstance.storage = some m.storage
  rw [hslot]
  rfl

/-- Witness for C6: a 13-byte blob on a voice whose slot 0 is a pitch-shift
module holding 12 bytes. -/
theorem C6_oversized_blob_rejected_witness :
    (Voice.mk [⟨ModuleKind.pitch_shift, List.replicate 12 7⟩]).set_parameter 0
        (List.replicate 13 1)
      = (ParamResult.ParamTooLarge, Voice.mk [⟨ModuleKind.pitch_shift, List.replicate 12 7⟩]) ∧
    (((Voice.mk [⟨ModuleKind.pitch_shift, List.replicate 12 7⟩]).set_parameter 0
        (List.replicate 13 1)).2.modules.get? 0).map ModuleInstance.storage
      = some (List.replicate 12 7) :=
  C6_oversized_blob_rejected (Voice.mk [⟨ModuleKind.pitch_shift, List.replicate 12 7⟩]) 0
    ⟨ModuleKind.pitch_shift, List.replicate 12 7⟩ (List.replicate 13 1) rfl rfl (by decide)

/-! ## Frame duration -/

/-- A value in `[0, 2^64)` converts to `uint64_t` unchanged. -/
theorem to_uint64_of_nat (n : Nat) (h : n < 2 ^ 64) : to_uint64 (n : Int) = n := by
  unfold to_uint64
  have h1 : ((n : Int) % (2 ^ 64 : Int)) = (n : Int) := by
    apply Int.emod_eq_of_lt
    · exact Int.natCast_nonneg n
    · exact_mod_cast h
  rw [h1]
  exact Int.toNat_natCast n

/-- Claim C8: for an average frame rate `num/den` with `0 < num < 2^31` and
`0 <= den < 2^31`, `get_framerate_microseconds` returns a value `r` (it does
not divide by zero) with `r * num <= 1000000 * den < (r + 1) * num`, which is
`floor(1000000 * den / num)`, and the 64-bit product `1000000 * den` does not
wrap. -/
theorem C8_framerate_exact (s : PlayerState) (f : AVFormatContext) (st : AVStream)
    (hf : s.format = some f) (hst : stream_at f s.video_stream_id = some st)
    (hnum0 : 0 < st.avg_frame_rate.num) (hnum : st.avg_frame_rate.num < 2 ^ 31)
    (hden0 : 0 ≤ st.avg_frame_rate.den) (hden : st.avg_frame_rate.den < 2 ^ 31) :
    ∃ r : Nat, s.get_framerate_microseconds = some r ∧
      (r : Int) * st.avg_frame_rate.num ≤ 1000000 * st.avg_frame_rate.den ∧
      1000000 * st.avg_frame_rate.den < ((r : Int) + 1) * st.avg_frame_rate.num ∧
      (r : Int) = 1000000 * st.avg_frame_rate.den / st.avg_frame_rate.num ∧
      to_uint64 st.avg_frame_rate.num ≠ 0 ∧
      1000000 * to_uint64 st.avg_frame_rate.den < 2 ^ 64 := by
  obtain ⟨n, hn'⟩ := Int.eq_ofNat_of_zero_le (le_of_lt hnum0)
  obtain ⟨d, hd'⟩ := Int.eq_ofNat_of_zero_le hden0
  rw [hn'] at hnum0 hnum
  rw [hd'] at hden
  rw [hn', hd']
  have hn0 : 0 < n := by exact_mod_cast hnum0
  have hn : n < 2 ^ 31 := by exact_mod_cast hnum
  have hdd : d < 2 ^ 31 := by exact_mod_cast hden
  have hun : to_uint64 (n : Int) = n := to_uint64_of_nat n (by omega)
  have hud : to_uint64 (d : Int) = d := to_uint64_of_nat d (by omega)
  have hprod : 1000000 * d < 2 ^ 64 := by omega
  refine ⟨1000000 * d / n, ?_, ?_, ?_, ?_, ?_, ?_⟩
  · simp only [PlayerState.get_framerate_microseconds, hf, hst, hn', hd', hun, hud]
    rw [if_neg (by omega), Nat.mod_eq_of_lt hprod]
  · have h := Nat.div_mul_le_self (1000000 * d) n
    exact_mod_cast h
  · have h2 : 1000000 * d < (1000000 * d / n + 1) * n := by
      have h3 := Nat.lt_mul_div_succ (1000000 * d) hn0
      calc 1000000 * d < n * (1000000 * d / n + 1) := h3
        _ = (1000000 * d / n + 1) * n := Nat.mul_comm _ _
    exact_mod_cast h2
  · push_cast
    rfl
  · rw [hun]; omega
  · rw [hud]; exact hprod

/-- Witness for C8: 30000/1001 frames per second gives 33366 microseconds. -/
theorem C8_framerate_exact_witness :
    ∃ r : Nat,
      PlayerState.get_framerate_microseconds
        ⟨some ⟨[⟨0, ⟨30000, 1001⟩⟩], 0, 0, -1, []⟩, none, none, 0, -1, [], [], "", [], 0, 0, 0, 0⟩
        = some r ∧
      (r : Int) * 30000 ≤ 1000000 * 1001 ∧
      1000000 * 1001 < ((r : Int) + 1) * 30000 ∧
      (r : Int) = 1000000 * 1001 / 30000 ∧
      to_uint64 30000 ≠ 0 ∧
      1000000 * to_uint64 1001 < 2 ^ 64 :=
  C8_framerate_exact
    ⟨some ⟨[⟨0, ⟨30000, 1001⟩⟩], 0, 0, -1, []⟩, none, none, 0, -1, [], [], "", [], 0, 0, 0, 0⟩
    ⟨[⟨0, ⟨30000, 1001⟩⟩], 0, 0, -1, []⟩ ⟨0, ⟨30000, 1001⟩⟩ rfl rfl
    (by decide) (by decide) (by decide) (by decide)

/-! ## Queueing and switching videos -/

theorem free_packets_nil (q : List AVPacket) : free_packets q = [] := by
  induction q with
  | nil => rfl
  | cons _ rest ih => simpa [free_packets] using ih

/-- Whether `switch_video` returns or stops at an assertion, the state it
leaves plays `path` and has the queue of waiting videos untouched. -/
theorem switch_video_final (env : Env) (path : String) (s : PlayerState) :
    (final_state (s.switch_video env path)).video_playing = path ∧
    (final_state (s.switch_video env path)).videos_queue = s.videos_queue := by
  unfold PlayerState.switch_video
  simp only
  repeat' split
  all_goals exact ⟨rfl, rfl⟩

/-- A `switch_video` that returns leaves `path` playing, the waiting videos
untouched and both packet queues empty. -/
theorem switch_video_ok (env : Env) (path : String) (s s2 : PlayerState)
    (h : s.switch_video env path = .ok s2) :
    s2.video_playing = path ∧ s2.videos_queue = s.videos_queue ∧
    s2.video_packets = [] ∧ s2.audio_packets = [] := by
  have hf := switch_video_final env path s
  rw [h] at hf
  refine ⟨hf.1, hf.2, ?_, ?_⟩
  all_goals
    unfold PlayerState.switch_video at h
    simp only at h
    repeat' split at h
    all_goals first
      | (injection h with h; subst h; simp [PlayerState.free_video, free_packets_nil])
      | cases h

/-- Claim C3: `queue(path)` with a path that does not exist returns with the
state unchanged; with an existing path and nothing playing it leaves `path`
playing and the waiting videos as they were (also when `switch_video` stops at
an assertion); with an existing path while a video plays it returns with `path`
appended at the back of the waiting videos and nothing else changed. -/
theorem C3_queue_glue (env : Env) (path : String) (s : PlayerState) :
    (env.fs_exists path = false → s.queue env path = .ok s) ∧
    (env.fs_exists path = true → s.video_playing = "" →
      s.queue env path = s.switch_video env path ∧
      (final_state (s.queue env path)).video_playing = path ∧
      (final_state (s.queue env path)).videos_queue = s.videos_queue) ∧
    (env.fs_exists path = true → s.video_playing ≠ "" →
      s.queue env path = .ok { s with videos_queue := s.videos_queue ++ [path] } ∧
      (final_state (s.queue env path)).video_playing = s.video_playing ∧
      (final_state (s.queue env path)).videos_queue = s.videos_queue ++ [path]) := by
  refine ⟨?_, ?_, ?_⟩
  · intro h
    simp [PlayerState.queue, h]
  · intro h hp
    have hq : s.queue env path = s.switch_video env path := by
      simp [PlayerState.queue, h, hp]
    rw [hq]
    exact ⟨rfl, switch_video_final env path s⟩
  · intro h hp
    have hq : s.queue env path = .ok { s with videos_queue := s.videos_queue ++ [path] } := by
      simp [PlayerState.queue, h, hp]
    rw [hq]
    exact ⟨rfl, rfl, rfl⟩

/-- Witness for C3 in `demo_env`: a missing file, the first video, and a
second video queued while the first plays. -/
theorem C3_queue_glue_witness :
    idle_player.queue demo_env "nope.mp4" = .ok idle_player ∧
    (final_state (idle_player.queue demo_env "clip.mp4")).video_playing = "clip.mp4" ∧
    demo_player.queue demo_env "clip.mp4"
      = .ok { demo_player with videos_queue := demo_player.videos_queue ++ ["clip.mp4"] } :=
  ⟨(C3_queue_glue demo_env "nope.mp4" idle_player).1 (by decide),
   ((C3_queue_glue demo_env "clip.mp4" idle_player).2.1 (by decide) (by decide)).2.1,
   ((C3_queue_glue demo_env "clip.mp4" demo_player).2.2 (by decide) (by decide)).1⟩

/-! ## End of a video -/

/-- The error branch of the two loops.  In a round of the `receive_audio` loop
in which the decoder's status is not zero and is not an `EAGAIN` answered by a successful
`next_packet` (so `s1` is the state after the failed `next_packet`, or right
after the decoder call when the status is not `EAGAIN`): with no video waiting
the call returns an empty buffer and `video_playing` cleared; otherwise it runs
`switch_video` on the front of `videos_queue`, drops exactly that entry and
goes on with the next round on the new video (or stops where `switch_video`
stops).  The same holds for `receive_video`. -/
theorem end_of_video_round (env : Env) (fuel : Nat) (s s1 : PlayerState) (ctx : AVCodecContext) :
    (s.audio_context = some ctx →
     (env.avcodec_receive_frame ctx).1 ≠ 0 →
     (if (env.avcodec_receive_frame ctx).1 = AVERROR EAGAIN
       then (audio_frame_requested s ctx).next_packet env s.audio_stream_id = .ok (false, s1)
       else s1 = audio_frame_requested s ctx) →
     (s1.videos_queue = [] →
        receive_audio_loop env (fuel + 1) s = some (.ok ([], { s1 with video_playing := "" }))) ∧
     (∀ front rest, s1.videos_queue = front :: rest →
        (∀ e, s1.switch_video env front = .error e →
          receive_audio_loop env (fuel + 1) s = some (.error e)) ∧
        (∀ s2, s1.switch_video env front = .ok s2 →
          receive_audio_loop env (fuel + 1) s
            = receive_audio_loop env fuel { s2 with videos_queue := rest } ∧
          s2.video_playing = front ∧ s2.videos_queue = front :: rest))) ∧
    (s.video_context = some ctx →
     (env.avcodec_receive_frame ctx).1 ≠ 0 →
     (if (env.avcodec_receive_frame ctx).1 = AVERROR EAGAIN
       then (video_frame_requested s ctx).next_packet env s.video_stream_id = .ok (false, s1)
       else s1 = video_frame_requested s ctx) →
     (s1.videos_queue = [] →
        receive_video_loop env (fuel + 1) s = some (.ok ([], { s1 with video_playing := "" }))) ∧
     (∀ front rest, s1.videos_queue = front :: rest →
        (∀ e, s1.switch_video env front = .error e →
          receive_video_loop env (fuel + 1) s = some (.error e)) ∧
        (∀ s2, s1.switch_video env front = .ok s2 →
          receive_video_loop env (fuel + 1) s
            = receive_video_loop env fuel { s2 with videos_queue := rest } ∧
          s2.video_playing = front ∧ s2.videos_queue = front :: rest))) := by
  constructor
  · intro hctx herr hs1
    have hcond : (if (env.avcodec_receive_frame ctx).1 = AVERROR EAGAIN
        then (audio_frame_requested s ctx).next_packet env s.audio_stream_id
        else .ok (false, audio_frame_requested s ctx)) = .ok (false, s1) := by
      by_cases hE : (env.avcodec_receive_frame ctx).1 = AVERROR EAGAIN
      · rw [if_pos hE] at hs1 ⊢; exact hs1
      · rw [if_neg hE] at hs1 ⊢; rw [hs1]
    have hunf : receive_audio_loop env (fuel + 1) s =
        (match s1.videos_queue with
          | [] => some (.ok ([], { s1 with video_playing := "" }))
          | front :: rest =>
            match s1.switch_video env front with
            | .error e => some (.error e)
            | .ok s2 => receive_audio_loop env fuel { s2 with videos_queue := rest }) := by
      rw [receive_audio_loop]
      simp only [hctx]
      change (match (if (env.avcodec_receive_frame ctx).1 = AVERROR EAGAIN
        then (audio_frame_requested s ctx).next_packet env s.audio_stream_id
        else .ok (false, audio_frame_requested s ctx)) with
        | .error e => _ | .ok (true, s1) => _ | .ok (false, s1) => _) = _
      rw [hcond]
      simp only [herr, ne_eq, not_false_eq_true, if_true]
    refine ⟨?_, ?_⟩
    · intro hq
      rw [hunf, hq]
    · intro front rest hq
      refine ⟨?_, ?_⟩
      · intro e he
        rw [hunf, hq]
        simp only [he]
      · intro s2 h2
        refine ⟨?_, (switch_video_ok env front s1 s2 h2).1, ?_⟩
        · rw [hunf, hq]
          simp only [h2]
        · rw [(switch_video_ok env front s1 s2 h2).2.1, hq]
  · intro hctx herr hs1
    have hcond : (if (env.avcodec_receive_frame ctx).1 = AVERROR EAGAIN
        then (video_frame_requested s ctx).next_packet env s.video_stream_id
        else .ok (false, video_frame_requested s ctx)) = .ok (false, s1) := by
      by_cases hE : (env.avcodec_receive_frame ctx).1 = AVERROR EAGAIN
      · rw [if_pos hE] at hs1 ⊢; exact hs1
      · rw [if_neg hE] at hs1 ⊢; rw [hs1]
    have hunf : receive_video_loop env (fuel + 1) s =
        (match s1.videos_queue with
          | [] => some (.ok ([], { s1 with video_playing := "" }))
          | front :: rest =>
            match s1.switch_video env front with
            | .error e => some (.error e)
            | .ok s2 => receive_video_loop env fuel { s2 with videos_queue := rest }) := by
      rw [receive_video_loop]
      simp only [hctx]
      change (match (if (env.avcodec_receive_frame ctx).1 = AVERROR EAGAIN
        then (video_frame_requested s ctx).next_packet env s.video_stream_id
        else .ok (false, video_frame_requested s ctx)) with
        | .error e => _ | .ok (true, s1) => _ | .ok (false, s1) => _) = _
      rw [hcond]
      simp only [herr, ne_eq, not_false_eq_true, if_true]
    refine ⟨?_, ?_⟩
    · intro hq
      rw [hunf, hq]
    · intro front rest hq
      refine ⟨?_, ?_⟩
      · intro e he
        rw [hunf, hq]
        simp only [he]
      · intro s2 h2
        refine ⟨?_, (switch_video_ok env front s1 s2 h2).1, ?_⟩
        · rw [hunf, hq]
          simp only [h2]
        · rw [(switch_video_ok env front s1 s2 h2).2.1, hq]

/-- `pop_video` is the same step as the one the two loops take at the end of a
video: `switch_video` on the front of the waiting videos, then that entry is
dropped. -/
theorem pop_video_step (env : Env) (s s2 : PlayerState) (front : String) (rest : List String)
    (hq : s.videos_queue = front :: rest) (h : s.switch_video env front = .ok s2) :
    s.pop_video env = .ok { s2 with videos_queue := rest } := by
  simp only [PlayerState.pop_video, hq, h]

/-- The error branch in `demo_env`, at the end of `clip.mp4`: with no video
waiting `receive_audio` returns an empty buffer and nothing is playing; with
two videos waiting `receive_video` switches to the first and keeps the second. -/
theorem end_of_video_round_example :
    receive_audio_loop demo_env 1 ended_player
      = some (.ok ([], { audio_frame_requested ended_player ⟨11, [], 0⟩ with
          video_playing := "" })) ∧
    receive_video_loop demo_env 3 ended_player_queued
      = receive_video_loop demo_env 2
          { demo_player with videos_queue := ["nope.mp4"] } :=
  ⟨((end_of_video_round demo_env 0 ended_player
        (audio_frame_requested ended_player ⟨11, [], 0⟩) ⟨11, [], 0⟩).1
      rfl (by decide) (by rfl)).1 rfl,
   ((((end_of_video_round demo_env 2 ended_player_queued
        (video_frame_requested ended_player_queued ⟨10, [], 0⟩) ⟨10, [], 0⟩).2
      rfl (by decide) (by rfl)).2 "clip.mp4" ["nope.mp4"] rfl).2
      { demo_player with videos_queue := ["clip.mp4", "nope.mp4"] } (by rfl)).1⟩

/-- What the decoder block of `switch_video` leaves for a stream id, starting
from a null context: no decoder for a negative id, a new one otherwise. -/
theorem open_decoder_fresh (f : AVFormatContext) (id : Int) (c : Option AVCodecContext)
    (h : open_decoder f id none = some c) :
    (id < 0 → c = none) ∧
    (0 ≤ id → ∃ st, stream_at f id = some st ∧ c = some ⟨st.codecpar, [], 0⟩) := by
  unfold open_decoder at h
  by_cases hid : id ≥ 0
  · rw [if_pos hid] at h
    cases hst : stream_at f id with
    | none => rw [hst] at h; cases h
    | some st =>
      rw [hst] at h
      injection h with h
      exact ⟨fun hneg => absurd hid (by omega), fun _ => ⟨st, rfl, h.symm⟩⟩
  · rw [if_neg hid] at h
    injection h with h
    exact ⟨fun _ => h.symm, fun hpos => absurd hpos hid⟩

/-- A `switch_video` that returns has opened the new input, taken its best
video and audio stream, emptied both packet queues, and made a new decoder for
each of the two streams that exists; for a stream that does not exist the
context is null. -/
theorem switch_video_opened (env : Env) (path : String) (s s2 : PlayerState)
    (h : s.switch_video env path = .ok s2) :
    ∃ f, env.avformat_open_input path = some f ∧ s2.format = some f ∧
      s2.video_stream_id = f.best_video_stream ∧
      s2.audio_stream_id = f.best_audio_stream ∧
      s2.video_packets = [] ∧ s2.audio_packets = [] ∧
      (s2.video_stream_id < 0 → s2.video_context = none) ∧
      (0 ≤ s2.video_stream_id → ∃ st, stream_at f s2.video_stream_id = some st ∧
        s2.video_context = some ⟨st.codecpar, [], 0⟩) ∧
      (s2.audio_stream_id < 0 → s2.audio_context = none) ∧
      (0 ≤ s2.audio_stream_id → ∃ st, stream_at f s2.audio_stream_id = some st ∧
        s2.audio_context = some ⟨st.codecpar, [], 0⟩) := by
  obtain ⟨_, _, hvq, haq⟩ := switch_video_ok env path s s2 h
  unfold PlayerState.switch_video at h
  simp only at h
  cases hopen : env.avformat_open_input path with
  | none => rw [hopen] at h; cases h
  | some f =>
    rw [hopen] at h
    simp only at h
    by_cases hinfo : f.find_stream_info_status < 0
    · rw [if_pos hinfo] at h; cases h
    · rw [if_neg hinfo] at h
      cases hv : open_decoder f f.best_video_stream none with
      | none =>
        have hv' : open_decoder f f.best_video_stream s.free_video.video_context = none := hv
        rw [hv'] at h; cases h
      | some vc =>
        have hv' : open_decoder f f.best_video_stream s.free_video.video_context = some vc := hv
        rw [hv'] at h
        simp only at h
        cases ha : open_decoder f f.best_audio_stream none with
        | none =>
          have ha' : open_decoder f f.best_audio_stream s.free_video.audio_context = none := ha
          rw [ha'] at h; cases h
        | some ac =>
          have ha' : open_decoder f f.best_audio_stream s.free_video.audio_context = some ac :=
            ha
          rw [ha'] at h
          injection h with h
          subst h
          obtain ⟨hv1, hv2⟩ := open_decoder_fresh f f.best_video_stream vc hv
          obtain ⟨ha1, ha2⟩ := open_decoder_fresh f f.best_audio_stream ac ha
          exact ⟨f, rfl, rfl, rfl, rfl, hvq, haq, hv1, hv2, ha1, ha2⟩

/-- A round of the `receive_audio` loop with a null `audio_context` stops at
`avcodec_receive_frame(audio_context, frame)`. -/
theorem receive_audio_loop_null_decoder (env : Env) (fuel : Nat) (s : PlayerState)
    (h : s.audio_context = none) :
    receive_audio_loop env (fuel + 1) s = some (.error s) := by
  rw [receive_audio_loop]
  simp only [h]

/-- A round of the `receive_video` loop with a null `video_context` stops at
`avcodec_receive_frame(video_context, frame)`. -/
theorem receive_video_loop_null_decoder (env : Env) (fuel : Nat) (s : PlayerState)
    (h : s.video_context = none) :
    receive_video_loop env (fuel + 1) s = some (.error s) := by
  rw [receive_video_loop]
  simp only [h]

/-- The round after a switch.  When `switch_video` returned for the front of
the waiting videos, the next round of `receive_audio` decodes with a new audio
decoder of the new input if that input has an audio stream, and stops at the
null `audio_context` if it has none: the test `audio_stream_id < 0` at the start
of `receive_audio` is not made again inside the loop.  Likewise for
`receive_video` and the video stream. -/
theorem round_after_switch (env : Env) (fuel : Nat) (s1 s2 : PlayerState) (front : String)
    (rest : List String) (h : s1.switch_video env front = .ok s2) :
    (s2.audio_stream_id < 0 →
      receive_audio_loop env (fuel + 1) { s2 with videos_queue := rest }
        = some (.error { s2 with videos_queue := rest })) ∧
    (0 ≤ s2.audio_stream_id → ∃ f st, env.avformat_open_input front = some f ∧
      s2.format = some f ∧ stream_at f s2.audio_stream_id = some st ∧
      s2.audio_context = some ⟨st.codecpar, [], 0⟩ ∧ s2.audio_packets = []) ∧
    (s2.video_stream_id < 0 →
      receive_video_loop env (fuel + 1) { s2 with videos_queue := rest }
        = some (.error { s2 with videos_queue := rest })) ∧
    (0 ≤ s2.video_stream_id → ∃ f st, env.avformat_open_input front = some f ∧
      s2.format = some f ∧ stream_at f s2.video_stream_id = some st ∧
      s2.video_context = some ⟨st.codecpar, [], 0⟩ ∧ s2.video_packets = []) := by
  obtain ⟨f, hopen, hf, _, _, hvq, haq, hv1, hv2, ha1, ha2⟩ :=
    switch_video_opened env front s1 s2 h
  refine ⟨?_, ?_, ?_, ?_⟩
  · intro hneg
    exact receive_audio_loop_null_decoder env fuel _ (ha1 hneg)
  · intro hpos
    obtain ⟨st, hst, hctx⟩ := ha2 hpos
    exact ⟨f, st, hopen, hf, hst, hctx, haq⟩
  · intro hneg
    exact receive_video_loop_null_decoder env fuel _ (hv1 hneg)
  · intro hpos
    obtain ⟨st, hst, hctx⟩ := hv2 hpos
    exact ⟨f, st, hopen, hf, hst, hctx, hvq⟩

/-- Claim C7, evaluated where the next video has no audio stream.  In
`playlist_env`, `queue("clip.mp4")` then `queue("silent.mp4")` leave
`clip_then_silent`: `clip.mp4` playing with audio stream 1, `silent.mp4` waiting.
`receive_audio` passes its two tests, uses up the audio of `clip.mp4`, reaches
the error branch with a video waiting, runs `switch_video("silent.mp4")` and
drops that entry; the next round then calls `avcodec_receive_frame` on the null
`audio_context` and the run stops there, for every number of rounds from 4 on.
It does not go on decoding from the new video, and it returns no buffer. -/
theorem C7_next_video_without_audio_null_decoder :
    idle_player.queue playlist_env "clip.mp4" = .ok two_stream_player ∧
    two_stream_player.queue playlist_env "silent.mp4" = .ok clip_then_silent ∧
    ¬ clip_then_silent.audio_stream_id < 0 ∧
    clip_then_silent.video_playing ≠ "" ∧
    clip_then_silent.videos_queue = ["silent.mp4"] ∧
    (∀ k, clip_then_silent.receive_audio playlist_env (k + 4)
      = some (.error silent_without_decoder)) ∧
    silent_without_decoder.video_playing = "silent.mp4" ∧
    silent_without_decoder.videos_queue = [] ∧
    silent_without_decoder.format = some silent_input ∧
    silent_without_decoder.audio_stream_id < 0 ∧
    silent_without_decoder.audio_context = none := by
  refine ⟨by rfl, by rfl, by decide, by decide, rfl, ?_, rfl, rfl, rfl, by decide, rfl⟩
  intro k
  rfl

/-! ## Demultiplexing -/

/-- Claim C1, evaluated on an input with a third stream.  `demo_player` is the
state `switch_video` leaves (both packet queues empty).  The calls
`next_packet(video_stream_id)` twice and `next_packet(audio_stream_id)` once
return `true, false, true`; the video decoder was handed the packet of stream
0, and the audio decoder (stream 1) was handed the packet of stream 2. -/
theorem C1_third_stream_packet_reaches_audio_decoder :
    idle_player.switch_video demo_env "clip.mp4" = .ok demo_player ∧
    demo_player.video_packets = [] ∧ demo_player.audio_packets = [] ∧
    demo_player.video_stream_id = 0 ∧ demo_player.audio_stream_id = 1 ∧
    ∃ s', run_calls demo_env
        [demo_player.video_stream_id, demo_player.video_stream_id, demo_player.audio_stream_id]
        demo_player = .ok ([true, false, true], s') ∧
      s'.audio_stream_id = 1 ∧
      sent_to s'.video_context = [⟨0, 100⟩] ∧
      sent_to s'.audio_context = [⟨2, 101⟩] ∧
      ∃ p ∈ sent_to s'.audio_context, p.stream_index ≠ s'.audio_stream_id := by
  refine ⟨by rfl, rfl, rfl, rfl, rfl, ?_⟩
  refine ⟨_, by rfl, by rfl, by rfl, by rfl, ⟨2, 101⟩, ?_, by decide⟩
  decide

/-! ## Interleaving decoded audio -/

theorem wrap_int32_of_nat (x : Nat) (h : x < 2 ^ 31) : wrap_int32 (x : Int) = x := by
  unfold wrap_int32
  omega

/-- The index `a * nb_channels + b`, computed in `int` and converted to
`size_t`, is the natural number `a * c + b` as long as that is below `2^31`. -/
theorem audio_index (c a b : Nat) (h : a * c + b < 2 ^ 31) :
    to_uint64 (wrap_int32 (wrap_int32 ((a : Int) * (c : Int)) + (b : Int))) = a * c + b := by
  have h1 : a * c < 2 ^ 31 := by omega
  have e1 : ((a : Int) * (c : Int)) = ((a * c : Nat) : Int) := by push_cast; rfl
  rw [e1, wrap_int32_of_nat _ h1]
  have e2 : ((a * c : Nat) : Int) + (b : Int) = ((a * c + b : Nat) : Int) := by push_cast; rfl
  rw [e2, wrap_int32_of_nat _ h, to_uint64_of_nat _ (by omega)]

/-- The inner loop for sample `a`, after `k` rounds: the length is kept, the
entries `a*c .. a*c+k-1` hold the converted samples of channels `0 .. k-1`,
every other entry is as before. -/
theorem audio_inner_spec (env : Env) (frame : AVFrame) (c a : Nat)
    (hc : frame.nb_channels = (c : Int)) (data : List Int)
    (hfit : a * c + c ≤ data.length) (hlim : data.length < 2 ^ 31) :
    ∀ k, k ≤ c →
      (audio_inner env frame a k data).length = data.length ∧
      ∀ i, (audio_inner env frame a k data)[i]? =
        if a * c ≤ i ∧ i < a * c + k then some (env.pcm_of_float (frame.data (i - a * c) a))
        else data[i]? := by
  intro k
  induction k with
  | zero =>
    intro _
    refine ⟨rfl, ?_⟩
    intro i
    have : ¬ (a * c ≤ i ∧ i < a * c + 0) := by omega
    simp only [audio_inner, if_neg this]
  | succ k ih =>
    intro hk
    obtain ⟨hlen, hget⟩ := ih (by omega)
    have hidx : to_uint64 (wrap_int32 (wrap_int32 ((a : Int) * frame.nb_channels) + (k : Int)))
        = a * c + k := by
      rw [hc]
      exact audio_index c a k (by omega)
    refine ⟨?_, ?_⟩
    · simp only [audio_inner, List.length_set, hlen]
    · intro i
      simp only [audio_inner, hidx, List.getElem?_set, hlen, hget]
      by_cases hi : a * c + k = i
      · subst hi
        have h1 : a * c + k < data.length := by omega
        have h2 : a * c ≤ a * c + k ∧ a * c + k < a * c + (k + 1) := by omega
        have h3 : a * c + k - a * c = k := by omega
        simp only [if_true, if_pos h1, if_pos h2, h3]
      · simp only [if_neg hi]
        by_cases hr : a * c ≤ i ∧ i < a * c + k
        · have hr' : a * c ≤ i ∧ i < a * c + (k + 1) := by omega
          simp only [if_pos hr, if_pos hr']
        · have hr' : ¬ (a * c ≤ i ∧ i < a * c + (k + 1)) := by omega
          simp only [if_neg hr, if_neg hr']

/-- The outer loop after `m` rounds: the length is kept, entry `i < m*c`
holds the converted sample `i / c` of channel `i % c`, every other entry is as
before. -/
theorem audio_outer_spec (env : Env) (frame : AVFrame) (c : Nat)
    (hc : frame.nb_channels = (c : Int)) (data : List Int) (hlim : data.length < 2 ^ 31) :
    ∀ m, m * c ≤ data.length →
      (audio_outer env frame m data).length = data.length ∧
      ∀ i, (audio_outer env frame m data)[i]? =
        if i < m * c then some (env.pcm_of_float (frame.data (i % c) (i / c)))
        else data[i]? := by
  intro m
  induction m with
  | zero =>
    intro _
    refine ⟨rfl, ?_⟩
    intro i
    have : ¬ (i < 0 * c) := by omega
    simp only [audio_outer, if_neg this]
  | succ m ih =>
    intro hm
    have hmul : (m + 1) * c = m * c + c := Nat.succ_mul m c
    obtain ⟨hlen, hget⟩ := ih (by omega)
    have hcn : frame.nb_channels.toNat = c := by rw [hc]; exact Int.toNat_natCast c
    obtain ⟨hlen2, hget2⟩ := audio_inner_spec env frame c m hc (audio_outer env frame m data)
      (by omega) (by omega) c (le_refl c)
    refine ⟨?_, ?_⟩
    · simp only [audio_outer, hcn, hlen2, hlen]
    · intro i
      simp only [audio_outer, hcn, hget2, hget, hmul]
      by_cases hr : m * c ≤ i ∧ i < m * c + c
      · have hcpos : 0 < c := by omega
        have hdiv : i / c = m := by
          apply Nat.div_eq_of_lt_le
          · exact hr.1
          · rw [hmul]; exact hr.2
        have hmod : i % c = i - m * c := by
          have h := Nat.mod_add_div i c
          rw [hdiv, Nat.mul_comm c m] at h
          omega
        simp only [if_pos hr, if_pos hr.2, hdiv, hmod]
      · simp only [if_neg hr]
        by_cases hlt : i < m * c
        · have hlt' : i < m * c + c := by omega
          simp only [if_pos hlt, if_pos hlt']
        · have hlt' : ¬ i < m * c + c := by omega
          simp only [if_neg hlt, if_neg hlt']

/-- The buffer `receive_audio` builds from a frame of `n` samples in `c`
channels with `n * c < 2^31`: `n * c` entries, entry `a * c + b` being the
converted sample `a` of channel `b`. -/
theorem interleave_spec (env : Env) (frame : AVFrame) (n c : Nat)
    (hn : frame.nb_samples = (n : Int)) (hc : frame.nb_channels = (c : Int))
    (hsize : n * c < 2 ^ 31) :
    (interleave env frame).length = n * c ∧
    ∀ a b, a < n → b < c →
      (interleave env frame)[a * c + b]? = some (env.pcm_of_float (frame.data b a)) := by
  have hnn : frame.nb_samples.toNat = n := by rw [hn]; exact Int.toNat_natCast n
  have hsz : to_uint64 (wrap_int32 (frame.nb_samples * frame.nb_channels)) = n * c := by
    rw [hn, hc]
    have e1 : ((n : Int) * (c : Int)) = ((n * c : Nat) : Int) := by push_cast; rfl
    rw [e1, wrap_int32_of_nat _ hsize, to_uint64_of_nat _ (by omega)]
  obtain ⟨hlen, hget⟩ := audio_outer_spec env frame c hc (List.replicate (n * c) 0)
    (by simpa using hsize) n (by simp)
  refine ⟨?_, ?_⟩
  · simp only [interleave, hnn, hsz, hlen, List.length_replicate]
  · intro a b ha hb
    have hlt : a * c + b < n * c := by
      have h1 : (a + 1) * c ≤ n * c := Nat.mul_le_mul_right c ha
      rw [Nat.succ_mul] at h1
      omega
    have hdiv : (a * c + b) / c = a := by
      apply Nat.div_eq_of_lt_le
      · omega
      · rw [Nat.succ_mul]; omega
    have hmod : (a * c + b) % c = b := by
      rw [Nat.add_comm, Nat.add_mul_mod_self_right]
      exact Nat.mod_eq_of_lt hb
    simp only [interleave, hnn, hsz, hget, if_pos hlt, hdiv, hmod]

/-- Claim C2: in the round of the `receive_audio` loop in which the decoder
delivers a frame (status 0) of `n` samples in `c` channels, `n * c` fitting an
`int`, the call returns a buffer of exactly `n * c` elements whose element
`a * c + b` is the 16-bit conversion of sample `a` of channel plane `b`; every
index below `n * c` is `a * c + b` for exactly one such pair, so no element is
left out or written twice; and `last_channels`, `last_sample_count`,
`last_sample_rate` are the frame's `c`, `n` and sample rate. -/
theorem C2_receive_audio_interleaved (env : Env) (fuel : Nat) (s : PlayerState)
    (ctx : AVCodecContext) (n c : Nat)
    (hctx : s.audio_context = some ctx)
    (herr : (env.avcodec_receive_frame ctx).1 = 0)
    (hn : (env.avcodec_receive_frame ctx).2.nb_samples = (n : Int))
    (hc : (env.avcodec_receive_frame ctx).2.nb_channels = (c : Int))
    (hsize : n * c < 2 ^ 31) :
    ∃ data s', receive_audio_loop env (fuel + 1) s = some (.ok (data, s')) ∧
      (0 ≤ s.audio_stream_id → s.video_playing ≠ "" →
        s.receive_audio env (fuel + 1) = some (.ok (data, s'))) ∧
      data.length = n * c ∧
      (∀ a b, a < n → b < c →
        data[a * c + b]? =
          some (env.pcm_of_float ((env.avcodec_receive_frame ctx).2.data b a))) ∧
      (∀ i, i < n * c → ∃ a b, a < n ∧ b < c ∧ i = a * c + b ∧
        ∀ a' b', a' < n → b' < c → i = a' * c + b' → a' = a ∧ b' = b) ∧
      s'.last_channels = c ∧ s'.last_sample_count = n ∧
      s'.last_sample_rate = (env.avcodec_receive_frame ctx).2.sample_rate := by
  have hE : ¬ ((env.avcodec_receive_frame ctx).1 = AVERROR EAGAIN) := by
    rw [herr]; decide
  have hloop : receive_audio_loop env (fuel + 1) s =
      some (.ok (interleave env (env.avcodec_receive_frame ctx).2,
        { audio_frame_requested s ctx with
          last_channels := (env.avcodec_receive_frame ctx).2.nb_channels
          last_sample_count := (env.avcodec_receive_frame ctx).2.nb_samples
          last_sample_rate := (env.avcodec_receive_frame ctx).2.sample_rate })) := by
    rw [receive_audio_loop]
    simp only [hctx, if_neg hE, herr, ne_eq, not_true_eq_false, if_false]
    rfl
  obtain ⟨hlen, hget⟩ := interleave_spec env (env.avcodec_receive_frame ctx).2 n c hn hc hsize
  refine ⟨_, _, hloop, ?_, hlen, hget, ?_, hc, hn, rfl⟩
  · intro h0 hp
    have h0' : ¬ s.audio_stream_id < 0 := by omega
    simp only [PlayerState.receive_audio, if_neg h0', if_neg hp]
    exact hloop
  · intro i hi
    have hcpos : 0 < c := by
      rcases Nat.eq_zero_or_pos c with h | h
      · subst h; simp at hi
      · exact h
    refine ⟨i / c, i % c, ?_, Nat.mod_lt i hcpos, ?_, ?_⟩
    · apply Nat.div_lt_of_lt_mul
      rw [Nat.mul_comm]; exact hi
    · have h := Nat.mod_add_div i c
      rw [Nat.mul_comm c (i / c)] at h
      omega
    · intro a' b' _ hb' hi'
      subst hi'
      have hdiv : (a' * c + b') / c = a' := by
        apply Nat.div_eq_of_lt_le
        · omega
        · rw [Nat.succ_mul]; omega
      have hmod : (a' * c + b') % c = b' := by
        rw [Nat.add_comm, Nat.add_mul_mod_self_right]
        exact Nat.mod_eq_of_lt hb'
      exact ⟨hdiv.symm, hmod.symm⟩

/-- Witness for C2: `stereo_frame` (3 samples, 2 channels) decoded for
`demo_player`. -/
theorem C2_receive_audio_interleaved_witness :
    ∃ data s', receive_audio_loop decoding_env 1 demo_player = some (.ok (data, s')) ∧
      (0 ≤ demo_player.audio_stream_id → demo_player.video_playing ≠ "" →
        demo_player.receive_audio decoding_env 1 = some (.ok (data, s'))) ∧
      data.length = 3 * 2 ∧
      (∀ a b, a < 3 → b < 2 →
        data[a * 2 + b]? =
          some (decoding_env.pcm_of_float
            ((decoding_env.avcodec_receive_frame ⟨11, [], 0⟩).2.data b a))) ∧
      (∀ i, i < 3 * 2 → ∃ a b, a < 3 ∧ b < 2 ∧ i = a * 2 + b ∧
        ∀ a' b', a' < 3 → b' < 2 → i = a' * 2 + b' → a' = a ∧ b' = b) ∧
      s'.last_channels = (2 : Nat) ∧ s'.last_sample_count = (3 : Nat) ∧
      s'.last_sample_rate = (decoding_env.avcodec_receive_frame ⟨11, [], 0⟩).2.sample_rate :=
  C2_receive_audio_interleaved decoding_env 0 demo_player ⟨11, [], 0⟩ 3 2 rfl rfl rfl rfl
    (by decide)

/-- The buffer of the witness above, written out: samples 0, 1, 2 of channel
0 (bit patterns 0, 1, 2) alternate with those of channel 1 (10, 11, 12). -/
theorem stereo_frame_interleaved :
    interleave decoding_env stereo_frame = [0, 10, 1, 11, 2, 12] := by
  decide

/-! ## Packet order -/

theorem of_stream_cons_eq (id : Int) (p : AVPacket) (l : List AVPacket)
    (h : p.stream_index = id) : of_stream id (p :: l) = p :: of_stream id l := by
  simp [of_stream, List.filter_cons, h]

/-- Popping the front of the video queue and handing it to the video decoder. -/
theorem submit_front_video (env : Env) (hsend : ∀ ctx p, env.avcodec_send_packet ctx p = 0)
    (s : PlayerState) (vc : AVCodecContext) (p : AVPacket) (q : List AVPacket)
    (hne : s.video_stream_id ≠ s.audio_stream_id) (hvc : s.video_context = some vc) :
    submit_front env s.video_stream_id p q s =
      .ok (true, { s with
        video_packets := q
        video_context := some { vc with sent := vc.sent ++ [p] } }) := by
  simp [submit_front, set_this_queue, send_video, hvc, hsend, hne]

/-- Popping the front of the audio queue and handing it to the audio decoder. -/
theorem submit_front_audio (env : Env) (hsend : ∀ ctx p, env.avcodec_send_packet ctx p = 0)
    (s : PlayerState) (ac : AVCodecContext) (p : AVPacket) (q : List AVPacket)
    (hne : s.video_stream_id ≠ s.audio_stream_id) (hac : s.audio_context = some ac) :
    submit_front env s.audio_stream_id p q s =
      .ok (true, { s with
        audio_packets := q
        audio_context := some { ac with sent := ac.sent ++ [p] } }) := by
  have hne' : ¬ s.audio_stream_id = s.video_stream_id := fun h => hne h.symm
  simp [submit_front, set_this_queue, send_audio, hac, hsend, hne']

/-- A `next_packet` call that finds a packet waiting hands it to the decoder of
the requested stream and to no other. -/
theorem submit_front_effect (env : Env) (hsend : ∀ ctx p, env.avcodec_send_packet ctx p = 0)
    (id : Int) (s : PlayerState) (hready : Ready s)
    (hid : id = s.video_stream_id ∨ id = s.audio_stream_id)
    (p : AVPacket) (q : List AVPacket) (hq : this_queue id s = p :: q) :
    ∃ s', submit_front env id p q s = .ok (true, s') ∧ CallEffect id s true s' := by
  obtain ⟨vc, hvc⟩ := hready.video_open
  obtain ⟨ac, hac⟩ := hready.audio_open
  have hne := hready.distinct
  have hne' : ¬ s.audio_stream_id = s.video_stream_id := fun h => hne h.symm
  rcases hid with rfl | rfl
  · refine ⟨_, submit_front_video env hsend s vc p q hne hvc, ?_⟩
    have hq' : s.video_packets = p :: q := by simpa [this_queue] using hq
    exact
      { video_id := rfl
        audio_id := rfl
        format_open := hready.format_open
        video_open := ⟨_, rfl⟩
        audio_open := ⟨ac, hac⟩
        unread_suffix := ⟨[], rfl⟩
        video_conserved := by
          show (vc.sent ++ [p]) ++ q ++ _ = sent_to s.video_context ++ s.video_packets ++ _
          rw [hvc, hq']
          simp [sent_to, unread]
        audio_conserved := rfl
        on_true := fun _ => ⟨p, fun _ => ⟨by rw [hvc]; rfl, rfl⟩, fun h => absurd h hne⟩
        on_false := fun h => by cases h }
  · refine ⟨_, submit_front_audio env hsend s ac p q hne hac, ?_⟩
    have hq' : s.audio_packets = p :: q := by simpa [this_queue, hne'] using hq
    exact
      { video_id := rfl
        audio_id := rfl
        format_open := hready.format_open
        video_open := ⟨vc, hvc⟩
        audio_open := ⟨_, rfl⟩
        unread_suffix := ⟨[], rfl⟩
        video_conserved := rfl
        audio_conserved := by
          show (ac.sent ++ [p]) ++ q ++ _ = sent_to s.audio_context ++ s.audio_packets ++ _
          rw [hac, hq']
          simp [sent_to, unread]
        on_true := fun _ => ⟨p, fun h => absurd h hne', fun _ => ⟨by rw [hac]; rfl, rfl⟩⟩
        on_false := fun h => by cases h }

/-- Reading one packet into the queue of its stream, then finishing the call
from there, amounts to the call from the state before the read. -/
theorem call_effect_of_read (id : Int) (s s1 s' : PlayerState) (r : Bool)
    (packet : AVPacket) (rest : List AVPacket)
    (hid : id = s.video_stream_id ∨ id = s.audio_stream_id)
    (hu : unread s = packet :: rest) (hu1 : unread s1 = rest)
    (hq : this_queue id s = [])
    (hv : s1.video_stream_id = s.video_stream_id)
    (ha : s1.audio_stream_id = s.audio_stream_id)
    (hvc : s1.video_context = s.video_context) (hac : s1.audio_context = s.audio_context)
    (hvq : s1.video_packets = s.video_packets ++ of_stream s.video_stream_id [packet])
    (haq : s1.audio_packets = s.audio_packets ++ of_stream s.audio_stream_id [packet])
    (h : CallEffect id s1 r s') : CallEffect id s r s' := by
  have hsplit : ∀ k, of_stream k (packet :: rest) = of_stream k [packet] ++ of_stream k rest := by
    intro k
    show of_stream k ([packet] ++ rest) = _
    simp only [of_stream, List.filter_append]
  obtain ⟨pre, hpre⟩ := h.unread_suffix
  exact
    { video_id := h.video_id.trans hv
      audio_id := h.audio_id.trans ha
      format_open := h.format_open
      video_open := h.video_open
      audio_open := h.audio_open
      unread_suffix := ⟨packet :: pre, by rw [hu, ← hu1, hpre]; rfl⟩
      video_conserved := by
        have h1 := h.video_conserved
        rw [hv, hvc, hvq, hu1] at h1
        rw [h1, hu, hsplit]
        simp only [List.append_assoc]
      audio_conserved := by
        have h1 := h.audio_conserved
        rw [ha, hac, haq, hu1] at h1
        rw [h1, hu, hsplit]
        simp only [List.append_assoc]
      on_true := by
        intro hr
        obtain ⟨p, h1, h2⟩ := h.on_true hr
        rw [hv, hvc, hac] at h1
        rw [ha, hvc, hac] at h2
        exact ⟨p, h1, h2⟩
      on_false := by
        intro hr
        obtain ⟨h1, h2, h3, h4, h5, h6⟩ := h.on_false hr
        rw [hvc] at h5
        rw [hac] at h6
        refine ⟨hq, h2, h3, ?_, h5, h6⟩
        have hthis : of_stream id [packet] = [] := by
          rcases hid with rfl | rfl
          · have h1' : s1.video_packets = [] := by simpa [this_queue, hv] using h1
            rw [hvq] at h1'
            exact (List.append_eq_nil.mp h1').2
          · by_cases hva : s.audio_stream_id = s.video_stream_id
            · have h1' : s1.video_packets = [] := by simpa [this_queue, hv, hva] using h1
              rw [hvq] at h1'
              rw [hva]
              exact (List.append_eq_nil.mp h1').2
            · have h1' : s1.audio_packets = [] := by
                simpa [this_queue, hv, hva] using h1
              rw [haq] at h1'
              exact (List.append_eq_nil.mp h1').2
        intro p hp
        rw [hu] at hp
        rcases List.mem_cons.mp hp with rfl | hp'
        · intro hidx
          rw [of_stream_cons_eq id p [] hidx] at hthis
          cases hthis
        · rw [hu1] at h4
          exact h4 p hp' }

/-- A call that finds its queue empty and the input exhausted. -/
theorem call_effect_exhausted (id : Int) (s : PlayerState) (hready : Ready s)
    (hq : this_queue id s = []) (hu : unread s = []) : CallEffect id s false s :=
  { video_id := rfl
    audio_id := rfl
    format_open := hready.format_open
    video_open := hready.video_open
    audio_open := hready.audio_open
    unread_suffix := ⟨[], rfl⟩
    video_conserved := rfl
    audio_conserved := rfl
    on_true := fun h => by cases h
    on_false := fun _ => ⟨hq, hq, hu, (by rw [hu]; intro p hp; cases hp), rfl, rfl⟩ }

/-- The loop of `next_packet` returns, and does what `CallEffect` says. -/
theorem next_packet_loop_effect (env : Env)
    (hsend : ∀ ctx p, env.avcodec_send_packet ctx p = 0) (id : Int) :
    ∀ (pkts : List AVPacket) (s : PlayerState), Ready s → unread s = pkts →
      (id = s.video_stream_id ∨ id = s.audio_stream_id) →
      ∃ r s', next_packet_loop env id pkts s = .ok (r, s') ∧ CallEffect id s r s' := by
  intro pkts
  induction pkts with
  | nil =>
    intro s hready hu hid
    cases hq : this_queue id s with
    | nil =>
      refine ⟨false, s, ?_, call_effect_exhausted id s hready hq hu⟩
      simp only [next_packet_loop, hq]
    | cons p q =>
      obtain ⟨s', h1, h2⟩ := submit_front_effect env hsend id s hready hid p q hq
      refine ⟨true, s', ?_, h2⟩
      simp only [next_packet_loop, hq]
      exact h1
  | cons packet rest ih =>
    intro s hready hu hid
    cases hq : this_queue id s with
    | cons p q =>
      obtain ⟨s', h1, h2⟩ := submit_front_effect env hsend id s hready hid p q hq
      refine ⟨true, s', ?_, h2⟩
      simp only [next_packet_loop, hq]
      exact h1
    | nil =>
      obtain ⟨f, hf⟩ := hready.format_open
      have hne := hready.distinct
      have hne' : ¬ s.audio_stream_id = s.video_stream_id := fun h => hne h.symm
      have hpk := hready.two_streams packet (by rw [hu]; exact List.mem_cons_self _ _)
      have htwo : ∀ p ∈ rest,
          p.stream_index = s.video_stream_id ∨ p.stream_index = s.audio_stream_id :=
        fun p hp => hready.two_streams p (by rw [hu]; exact List.mem_cons_of_mem _ hp)
      by_cases hidx : packet.stream_index = id
      · -- the packet belongs to the requested stream: `this_queue.push(packet)`
        have hstep : next_packet_loop env id (packet :: rest) s =
            next_packet_loop env id rest
              (set_this_queue id (this_queue id (set_unread rest s) ++ [packet])
                (set_unread rest s)) := by
          simp only [next_packet_loop, hq, if_pos hidx]
        have hready1 : Ready (set_this_queue id
            (this_queue id (set_unread rest s) ++ [packet]) (set_unread rest s)) := by
          rcases hid with rfl | rfl
          · exact
              { distinct := by simpa [set_this_queue, set_unread] using hne
                format_open := ⟨_, by simp [set_this_queue, set_unread, hf]; rfl⟩
                video_open := by simpa [set_this_queue, set_unread] using hready.video_open
                audio_open := by simpa [set_this_queue, set_unread] using hready.audio_open
                two_streams := by
                  simpa [set_this_queue, set_unread, unread, hf] using htwo }
          · exact
              { distinct := by simpa [set_this_queue, set_unread, hne'] using hne
                format_open := ⟨_, by simp [set_this_queue, set_unread, hf, hne']; rfl⟩
                video_open := by
                  simpa [set_this_queue, set_unread, hne'] using hready.video_open
                audio_open := by
                  simpa [set_this_queue, set_unread, hne'] using hready.audio_open
                two_streams := by
                  simpa [set_this_queue, set_unread, unread, hf, hne'] using htwo }
        obtain ⟨r, s', h1, h2⟩ := ih _ hready1
          (by rcases hid with rfl | rfl <;>
                simp [set_this_queue, set_unread, unread, hf, hne'])
          (by rcases hid with rfl | rfl <;>
                simp [set_this_queue, set_unread, hne'])
        refine ⟨r, s', hstep.trans h1, ?_⟩
        refine call_effect_of_read id s _ s' r packet rest hid hu ?_ hq ?_ ?_ ?_ ?_ ?_ ?_ h2
        all_goals
          rcases hid with rfl | rfl
          all_goals
            simp [set_this_queue, set_unread, unread, this_queue, of_stream, hf, hne, hne',
              hidx]
      · -- the packet belongs to the other stream: `other_queue.push(packet)`
        have hstep : next_packet_loop env id (packet :: rest) s =
            next_packet_loop env id rest (push_other_queue id packet (set_unread rest s)) := by
          simp only [next_packet_loop, hq, if_neg hidx]
        have hready1 : Ready (push_other_queue id packet (set_unread rest s)) := by
          rcases hid with rfl | rfl
          · exact
              { distinct := by simpa [push_other_queue, set_unread] using hne
                format_open := ⟨_, by simp [push_other_queue, set_unread, hf]; rfl⟩
                video_open := by simpa [push_other_queue, set_unread] using hready.video_open
                audio_open := by simpa [push_other_queue, set_unread] using hready.audio_open
                two_streams := by
                  simpa [push_other_queue, set_unread, unread, hf] using htwo }
          · exact
              { distinct := by simpa [push_other_queue, set_unread, hne'] using hne
                format_open := ⟨_, by simp [push_other_queue, set_unread, hf, hne']; rfl⟩
                video_open := by
                  simpa [push_other_queue, set_unread, hne'] using hready.video_open
                audio_open := by
                  simpa [push_other_queue, set_unread, hne'] using hready.audio_open
                two_streams := by
                  simpa [push_other_queue, set_unread, unread, hf, hne'] using htwo }
        obtain ⟨r, s', h1, h2⟩ := ih _ hready1
          (by rcases hid with rfl | rfl <;>
                simp [push_other_queue, set_unread, unread, hf, hne'])
          (by rcases hid with rfl | rfl <;>
                simp [push_other_queue, set_unread, hne'])
        refine ⟨r, s', hstep.trans h1, ?_⟩
        refine call_effect_of_read id s _ s' r packet rest hid hu ?_ hq ?_ ?_ ?_ ?_ ?_ ?_ h2
        all_goals
          rcases hid with rfl | rfl
          all_goals
            rcases hpk with hpk | hpk
            all_goals first
              | exact absurd hpk hidx
              | simp [push_other_queue, set_unread, unread, this_queue, of_stream, hf, hne,
                  hne', hidx, hpk]

/-- `next_packet` on a ready player returns, with the effect `CallEffect`. -/
theorem next_packet_effect (env : Env) (hsend : ∀ ctx p, env.avcodec_send_packet ctx p = 0)
    (id : Int) (s : PlayerState) (hready : Ready s)
    (hid : id = s.video_stream_id ∨ id = s.audio_stream_id) :
    ∃ r s', s.next_packet env id = .ok (r, s') ∧ CallEffect id s r s' := by
  obtain ⟨f, hf⟩ := hready.format_open
  have hu : unread s = f.packets := by simp [unread, hf]
  obtain ⟨r, s', h1, h2⟩ := next_packet_loop_effect env hsend id f.packets s hready hu hid
  refine ⟨r, s', ?_, h2⟩
  simp only [PlayerState.next_packet, hf]
  exact h1

/-- A ready player is still ready after a `next_packet` call. -/
theorem ready_after_call (id : Int) (s s' : PlayerState) (r : Bool) (hready : Ready s)
    (h : CallEffect id s r s') : Ready s' := by
  obtain ⟨pre, hpre⟩ := h.unread_suffix
  exact
    { distinct := by rw [h.video_id, h.audio_id]; exact hready.distinct
      format_open := h.format_open
      video_open := h.video_open
      audio_open := h.audio_open
      two_streams := by
        intro p hp
        rw [h.video_id, h.audio_id]
        exact hready.two_streams p (by rw [hpre]; exact List.mem_append_right _ hp) }

/-- Packets a call added to a decoder's log: one for the requested stream when
it returned `true`, none otherwise. -/
theorem sent_after_call (id : Int) (s s' : PlayerState) (r : Bool) (hready : Ready s)
    (hid : id = s.video_stream_id ∨ id = s.audio_stream_id) (h : CallEffect id s r s') :
    (∃ l, sent_to s'.video_context = sent_to s.video_context ++ l ∧
      l.length = if id = s.video_stream_id ∧ r = true then 1 else 0) ∧
    (∃ l, sent_to s'.audio_context = sent_to s.audio_context ++ l ∧
      l.length = if id = s.audio_stream_id ∧ r = true then 1 else 0) := by
  have hne := hready.distinct
  have hne' : ¬ s.audio_stream_id = s.video_stream_id := fun h => hne h.symm
  cases r with
  | false =>
    obtain ⟨_, _, _, _, h5, h6⟩ := h.on_false rfl
    exact ⟨⟨[], by simp [h5]⟩, ⟨[], by simp [h6]⟩⟩
  | true =>
    obtain ⟨p, h1, h2⟩ := h.on_true rfl
    rcases hid with rfl | rfl
    · obtain ⟨hv, ha⟩ := h1 rfl
      exact ⟨⟨[p], by simp [hv]⟩, ⟨[], by simp [ha, hne]⟩⟩
    · obtain ⟨ha, hv⟩ := h2 rfl
      exact ⟨⟨[], by simp [hv, hne']⟩, ⟨[p], by simp [ha]⟩⟩

/-- Any sequence of `next_packet` calls on a ready player runs to its end; the
stream ids stay, each stream's packets are conserved in order, and each
decoder's log grew by one packet per successful call for its stream. -/
theorem run_calls_effect (env : Env) (hsend : ∀ ctx p, env.avcodec_send_packet ctx p = 0) :
    ∀ (calls : List Int) (s : PlayerState), Ready s →
      (∀ id ∈ calls, id = s.video_stream_id ∨ id = s.audio_stream_id) →
      ∃ rs s', run_calls env calls s = .ok (rs, s') ∧ Ready s' ∧
        s'.video_stream_id = s.video_stream_id ∧ s'.audio_stream_id = s.audio_stream_id ∧
        sent_to s'.video_context ++ s'.video_packets ++ of_stream s.video_stream_id (unread s')
          = sent_to s.video_context ++ s.video_packets
              ++ of_stream s.video_stream_id (unread s) ∧
        sent_to s'.audio_context ++ s'.audio_packets ++ of_stream s.audio_stream_id (unread s')
          = sent_to s.audio_context ++ s.audio_packets
              ++ of_stream s.audio_stream_id (unread s) ∧
        (∃ l, sent_to s'.video_context = sent_to s.video_context ++ l ∧
          l.length = successes s.video_stream_id calls rs) ∧
        (∃ l, sent_to s'.audio_context = sent_to s.audio_context ++ l ∧
          l.length = successes s.audio_stream_id calls rs) := by
  intro calls
  induction calls with
  | nil =>
    intro s hready _
    exact ⟨[], s, rfl, hready, rfl, rfl, rfl, rfl, ⟨[], by simp [successes]⟩,
      ⟨[], by simp [successes]⟩⟩
  | cons id rest ih =>
    intro s hready hcalls
    have hid := hcalls id (List.mem_cons_self _ _)
    obtain ⟨r, s1, hcall, heff⟩ := next_packet_effect env hsend id s hready hid
    have hready1 := ready_after_call id s s1 r hready heff
    obtain ⟨⟨lv1, hlv1, hlv1n⟩, ⟨la1, hla1, hla1n⟩⟩ := sent_after_call id s s1 r hready hid heff
    obtain ⟨rs, s2, hrun, hready2, hv2, ha2, hcv, hca, ⟨lv2, hlv2, hlv2n⟩, ⟨la2, hla2, hla2n⟩⟩ :=
      ih s1 hready1 (by
        intro k hk
        rw [heff.video_id, heff.audio_id]
        exact hcalls k (List.mem_cons_of_mem _ hk))
    rw [heff.video_id] at hcv hlv2n hv2
    rw [heff.audio_id] at hca hla2n ha2
    refine ⟨r :: rs, s2, ?_, hready2, hv2, ha2, hcv.trans heff.video_conserved,
      hca.trans heff.audio_conserved, ⟨lv1 ++ lv2, ?_, ?_⟩, ⟨la1 ++ la2, ?_, ?_⟩⟩
    · simp only [run_calls, hcall, hrun]
    · rw [hlv2, hlv1, List.append_assoc]
    · rw [List.length_append, hlv1n, hlv2n]
      simp only [successes, eq_comm]
    · rw [hla2, hla1, List.append_assoc]
    · rw [List.length_append, hla1n, hla2n]
      simp only [successes, eq_comm]

/-- Claim C9: a player with an opened input and opened video and audio
decoders for two different streams, both packet queues empty, decoders that
accept every packet (the `assert`s hold), and an input whose packets all belong
to one of the two streams.  After any sequence of `next_packet` calls for the
two streams, every call has returned, and each decoder has been handed exactly
the first `k` packets of its stream in input order, `k` being the number of
calls for that stream that returned `true`, however the calls for the other
stream were interleaved.  A further call returns too, and when it returns
`false` the queue of its stream was empty, no packet of its stream was left in
the input, the input is exhausted afterwards, and no decoder was handed
anything. -/
theorem C9_packet_order_per_stream (env : Env) (s : PlayerState) (f : AVFormatContext)
    (vc ac : AVCodecContext) (calls : List Int)
    (hsend : ∀ ctx p, env.avcodec_send_packet ctx p = 0)
    (hf : s.format = some f) (hvc : s.video_context = some vc)
    (hac : s.audio_context = some ac)
    (hne : s.video_stream_id ≠ s.audio_stream_id)
    (htwo : ∀ p ∈ f.packets,
      p.stream_index = s.video_stream_id ∨ p.stream_index = s.audio_stream_id)
    (hvq : s.video_packets = []) (haq : s.audio_packets = [])
    (hcalls : ∀ id ∈ calls, id = s.video_stream_id ∨ id = s.audio_stream_id) :
    ∃ rs s', run_calls env calls s = .ok (rs, s') ∧
      sent_to s'.video_context =
        vc.sent ++ (of_stream s.video_stream_id f.packets).take
          (successes s.video_stream_id calls rs) ∧
      sent_to s'.audio_context =
        ac.sent ++ (of_stream s.audio_stream_id f.packets).take
          (successes s.audio_stream_id calls rs) ∧
      ∀ id, id = s.video_stream_id ∨ id = s.audio_stream_id →
        ∃ r s'', s'.next_packet env id = .ok (r, s'') ∧
          (r = false →
            this_queue id s' = [] ∧ (∀ p ∈ unread s', p.stream_index ≠ id) ∧
            unread s'' = [] ∧
            sent_to s''.video_context = sent_to s'.video_context ∧
            sent_to s''.audio_context = sent_to s'.audio_context) := by
  have hu : unread s = f.packets := by simp [unread, hf]
  have hready : Ready s :=
    { distinct := hne
      format_open := ⟨f, hf⟩
      video_open := ⟨vc, hvc⟩
      audio_open := ⟨ac, hac⟩
      two_streams := by rw [hu]; exact htwo }
  obtain ⟨rs, s', hrun, hready', hv', ha', hcv, hca, ⟨lv, hlv, hlvn⟩, ⟨la, hla, hlan⟩⟩ :=
    run_calls_effect env hsend calls s hready hcalls
  have hsv : sent_to s.video_context = vc.sent := by rw [hvc]; rfl
  have hsa : sent_to s.audio_context = ac.sent := by rw [hac]; rfl
  refine ⟨rs, s', hrun, ?_, ?_, ?_⟩
  · rw [hlv, hvq, hu, List.append_nil, List.append_assoc, List.append_assoc] at hcv
    have h1 := List.append_cancel_left hcv
    rw [hlv, hsv, ← hlvn, ← h1, List.take_left]
  · rw [hla, haq, hu, List.append_nil, List.append_assoc, List.append_assoc] at hca
    have h1 := List.append_cancel_left hca
    rw [hla, hsa, ← hlan, ← h1, List.take_left]
  · intro id hid
    obtain ⟨r, s'', hcall, heff⟩ := next_packet_effect env hsend id s' hready'
      (by rw [hv', ha']; exact hid)
    refine ⟨r, s'', hcall, ?_⟩
    intro hr
    obtain ⟨h1, _, h3, h4, h5, h6⟩ := heff.on_false hr
    exact ⟨h1, h4, h3, h5, h6⟩

/-- Witness for C9: `two_stream_player` and the calls audio, video, video,
audio, audio, video. -/
theorem C9_packet_order_per_stream_witness :
    ∃ rs s', run_calls demo_env [1, 0, 0, 1, 1, 0] two_stream_player = .ok (rs, s') ∧
      sent_to s'.video_context =
        [] ++ (of_stream two_stream_player.video_stream_id two_stream_input.packets).take
          (successes two_stream_player.video_stream_id [1, 0, 0, 1, 1, 0] rs) ∧
      sent_to s'.audio_context =
        [] ++ (of_stream two_stream_player.audio_stream_id two_stream_input.packets).take
          (successes two_stream_player.audio_stream_id [1, 0, 0, 1, 1, 0] rs) ∧
      ∀ id, id = two_stream_player.video_stream_id ∨ id = two_stream_player.audio_stream_id →
        ∃ r s'', s'.next_packet demo_env id = .ok (r, s'') ∧
          (r = false →
            this_queue id s' = [] ∧ (∀ p ∈ unread s', p.stream_index ≠ id) ∧
            unread s'' = [] ∧
            sent_to s''.video_context = sent_to s'.video_context ∧
            sent_to s''.audio_context = sent_to s'.audio_context) :=
  C9_packet_order_per_stream demo_env two_stream_player two_stream_input ⟨10, [], 0⟩ ⟨11, [], 0⟩
    [1, 0, 0, 1, 1, 0] (fun _ _ => rfl) rfl rfl rfl (by decide) (by decide) rfl rfl (by decide)

/-- The run of the witness above, written out: four calls succeed, then both
streams are at their end; the video decoder was handed packets 200 and 203, the
audio decoder 201 and 202. -/
theorem two_stream_run :
    ∃ s', run_calls demo_env [1, 0, 0, 1, 1, 0] two_stream_player
        = .ok ([true, true, true, true, false, false], s') ∧
      sent_to s'.video_context = [⟨0, 200⟩, ⟨0, 203⟩] ∧
      sent_to s'.audio_context = [⟨1, 201⟩, ⟨1, 202⟩] ∧
      s'.video_packets = [] ∧ s'.audio_packets = [] ∧ unread s' = [] :=
  ⟨_, by rfl, by rfl, by rfl, by rfl, by rfl, by rfl⟩

end Vita3K
